import Mathlib

/-!
Verification of the airline booking core of the `fly-port-api` repository.

The definitions below are a shallow embedding of `airport/models.py`,
`airport/serializers.py` and `airport/views.py`:

- machine-level rows of the store are plain structures; the durable store is
  a `Store` holding the persisted tickets and orders;
- `TicketSerializer.validate`, `OrderSerializer.validate`,
  `OrderSerializer.create`, `FlightSerializer.validate` and
  `OrderViewSet.get_queryset` become the Lean functions `ticketValidate`,
  `orderValidate`, `orderCreate`, `flightValidate` and `get_queryset`;
- the storage-layer `unique_together = ("row", "seat", "flight")` constraint
  on `Ticket` is modelled by `insertTicket`, which refuses an insert that
  would duplicate a (flight, row, seat) triple, and `transaction.atomic`
  is modelled by `orderCreate` returning `none` (the pre-state is kept by
  the caller) whenever any insert of the transaction body fails;
- datetimes are modelled as integers (`Int`), which keeps their total order;
  `timezone.now()` becomes an explicit `now` argument.
-/

namespace Airport

/-- Airplane row of `airport/models.py`: only the seat-map dimensions
`rows` and `seats_in_row` are relevant to the booking core. -/
structure Airplane where
  rows : Nat
  seats_in_row : Nat
deriving DecidableEq

/-- Flight row of `airport/models.py`, restricted to what the booking
core reads: its primary key and its airplane. -/
structure Flight where
  id : Nat
  airplane : Airplane
deriving DecidableEq

/-- Persisted Ticket row of `airport/models.py`: `flight` and `order` are
the foreign keys (primary-key values). -/
structure Ticket where
  flight : Nat
  row : Nat
  seat : Nat
  ticket_class : String
  price : Nat
  order : Nat
deriving DecidableEq

/-- Persisted Order row of `airport/models.py`: primary key and the
`user` foreign key. -/
structure Order where
  id : Nat
  user : Nat
deriving DecidableEq

/-- The durable store: persisted tickets and orders, plus the next
auto-generated order primary key. -/
structure Store where
  tickets : List Ticket
  orders : List Order
  nextOrderId : Nat
deriving DecidableEq

/-- The payload of one element of the `tickets` write-only list of
`OrderSerializer`: `{row, seat, ticket_class, flight}`.  The `flight`
primary key has already been resolved to a `Flight` row by the
`PrimaryKeyRelatedField`; `ticket_class` is optional in the payload. -/
structure TicketRequest where
  row : Nat
  seat : Nat
  ticket_class : Option String
  flight : Flight
deriving DecidableEq

/-- Requesting user as seen by `OrderViewSet.get_queryset`. -/
structure User where
  id : Nat
  is_staff : Bool
  is_authenticated : Bool
deriving DecidableEq

/-- Embeds `Ticket.objects.filter(flight=flight, row=row, seat=seat).exists()`
(serializers.py line 65): is some persisted ticket on this triple? -/
def seatTaken (tickets : List Ticket) (flightId row seat : Nat) : Bool :=
  tickets.any fun t => t.flight = flightId ∧ t.row = row ∧ t.seat = seat

/-- The errors `TicketSerializer.validate` can raise, one constructor per
`raise serializers.ValidationError` site (serializers.py lines 60-78).
`rowOutOfRange`/`seatOutOfRange` carry the bound cited in the message. -/
inductive TicketError where
  | missingField
  | seatAlreadyTaken
  | rowOutOfRange (rows : Nat)
  | seatOutOfRange (seats_in_row : Nat)
deriving DecidableEq

/-- Embeds `TicketSerializer.validate` (serializers.py lines 55-80) for a
request whose `flight` key resolved.  Python's `not all([flight, row, seat])`
treats `0` as missing, hence the first test; the seat-taken lookup runs
before the seat-map bounds checks, exactly as in the source. -/
def ticketValidate (existing : List Ticket) (flight : Flight)
    (row seat : Nat) : Except TicketError Unit :=
  if row = 0 ∨ seat = 0 then
    .error .missingField
  else if seatTaken existing flight.id row seat then
    .error .seatAlreadyTaken
  else if row < 1 ∨ row > flight.airplane.rows then
    .error (.rowOutOfRange flight.airplane.rows)
  else if seat < 1 ∨ seat > flight.airplane.seats_in_row then
    .error (.seatOutOfRange flight.airplane.seats_in_row)
  else
    .ok ()

/-- The list serializer for the write-only `tickets` field runs
`TicketSerializer.validate` on every element, each against the persisted
tickets only (no element sees its batch-mates).  The source field is
declared without `allow_empty`, so an empty list passes. -/
def ticketsValidate (existing : List Ticket) :
    List TicketRequest → Except TicketError Unit
  | [] => .ok ()
  | r :: rest =>
    match ticketValidate existing r.flight r.row r.seat with
    | .ok _ => ticketsValidate existing rest
    | .error e => .error e

/-- The error `OrderSerializer.validate` can raise
("All tickets must be in the same flight.", serializers.py line 158). -/
inductive OrderError where
  | multiFlight
deriving DecidableEq

/-- Embeds `OrderSerializer.validate` (serializers.py lines 153-161): the
set `{ticket["flight"] for ticket in tickets_data}` is modelled by
`dedup` of the flight ids; the whole check is skipped when the ticket
list is empty (`if tickets_data:`). -/
def orderValidate (reqs : List TicketRequest) : Except OrderError Unit :=
  if reqs.isEmpty then
    .ok ()
  else if ((reqs.map fun r => r.flight.id).dedup).length > 1 then
    .error .multiFlight
  else
    .ok ()

/-- Embeds the `price_mapping` dict of `OrderSerializer.create`
(serializers.py lines 138-142): dict lookup returning `none` on a
missing key. -/
def price_mapping (c : String) : Option Nat :=
  if c = "economy" then some 100
  else if c = "business" then some 200
  else if c = "first" then some 300
  else none

/-- Embeds `price_mapping.get(ticket_data.get("ticket_class", "economy"), 100)`
(serializers.py lines 147-148): a missing class defaults to "economy",
an unknown class defaults to 100. -/
def priceFor (ticket_class : Option String) : Nat :=
  (price_mapping (ticket_class.getD "economy")).getD 100

/-- The Ticket row built by `Ticket.objects.create(order=order, **ticket_data)`
(serializers.py line 149), with the price resolved by `priceFor` and the
model-level default `"economy"` for a missing class. -/
def mkTicket (orderId : Nat) (r : TicketRequest) : Ticket :=
  { flight := r.flight.id, row := r.row, seat := r.seat,
    ticket_class := r.ticket_class.getD "economy",
    price := priceFor r.ticket_class, order := orderId }

/-- One `Ticket.objects.create` insert under the storage constraint
`unique_together = ("row", "seat", "flight")` (models.py lines 62-63):
the insert fails (IntegrityError) when the triple is already present. -/
def insertTicket (s : Store) (t : Ticket) : Except Unit Store :=
  if seatTaken s.tickets t.flight t.row t.seat then
    .error ()
  else
    .ok { s with tickets := s.tickets ++ [t] }

/-- The ticket-creation loop of `OrderSerializer.create`
(serializers.py lines 146-149), inside the transaction body. -/
def createTickets (s : Store) (orderId : Nat) :
    List TicketRequest → Except Unit Store
  | [] => .ok s
  | r :: rest =>
    match insertTicket s (mkTicket orderId r) with
    | .ok s1 => createTickets s1 orderId rest
    | .error e => .error e

/-- Embeds `OrderSerializer.create` (serializers.py lines 134-151): under
`with transaction.atomic()`, the Order row is created first and then all
Tickets referencing it; a failing insert aborts the transaction, which is
modelled by returning `none` (the caller keeps the pre-state, i.e. the
rollback). -/
def orderCreate (s : Store) (user : Nat) (reqs : List TicketRequest) :
    Option (Store × Nat) :=
  let orderId := s.nextOrderId
  let s1 : Store :=
    { s with orders := s.orders ++ [{ id := orderId, user := user }],
             nextOrderId := orderId + 1 }
  match createTickets s1 orderId reqs with
  | .ok s2 => some (s2, orderId)
  | .error _ => none

/-- Outcome of a booking request at the request boundary: created with the
new order id, rejected by ticket-level or order-level validation, or
aborted by a storage IntegrityError at commit time. -/
inductive BookingOutcome where
  | created (orderId : Nat)
  | ticketError (e : TicketError)
  | orderError (e : OrderError)
  | integrityError
deriving DecidableEq

/-- The full booking pipeline of a POST on `OrderViewSet`: field-level
validation of every ticket request (`ticketValidate` per element), then
`OrderSerializer.validate`, then `OrderSerializer.create`.  Returns the
outcome together with the post-state of the store; every non-created
outcome leaves the store exactly as it was. -/
def processBooking (s : Store) (user : Nat) (reqs : List TicketRequest) :
    BookingOutcome × Store :=
  match ticketsValidate s.tickets reqs with
  | .error e => (.ticketError e, s)
  | .ok _ =>
    match orderValidate reqs with
    | .error e => (.orderError e, s)
    | .ok _ =>
      match orderCreate s user reqs with
      | some (s2, orderId) => (.created orderId, s2)
      | none => (.integrityError, s)

/-- Deleting an order through the `ModelViewSet` destroy action: the Order
row goes away and its Tickets cascade-delete (`on_delete=models.CASCADE`,
models.py lines 56-60). -/
def deleteOrder (s : Store) (orderId : Nat) : Store :=
  { s with orders := s.orders.filter fun o => o.id ≠ orderId,
           tickets := s.tickets.filter fun t => t.order ≠ orderId }

/-- Embeds `OrderViewSet.get_queryset` (views.py lines 119-126): non-staff
authenticated users get the orders filtered to their own, non-staff
unauthenticated users get the empty queryset, staff get everything. -/
def get_queryset (orders : List Order) (u : User) : List Order :=
  if !u.is_staff then
    if u.is_authenticated then
      orders.filter fun o => o.user = u.id
    else []
  else orders

/-- What `FlightSerializer.validate` does at the Python level: return the
data, raise a `ValidationError` with a message, or crash with a
`TypeError` from an unguarded comparison against `None`. -/
inductive FlightValidateResult where
  | ok
  | validationError (msg : String)
  | typeError
deriving DecidableEq

/-- Embeds `FlightSerializer.validate` (serializers.py lines 98-109).
Datetimes are integers and `timezone.now()` is the argument `now`.
When `departure_time` is `None`, the guarded first condition is skipped
(Python `and` short-circuits on the falsy `None`) and the second,
unguarded comparison `departure_time < timezone.now()` raises
`TypeError`. -/
def flightValidate (departure_time arrival_time : Option Int)
    (now : Int) : FlightValidateResult :=
  match departure_time, arrival_time with
  | some d, some a =>
    if d ≥ a then
      .validationError "Arrival time must be after departure time."
    else if d < now then
      .validationError "The time of departure cannot be in the past"
    else .ok
  | some d, none =>
    if d < now then
      .validationError "The time of departure cannot be in the past"
    else .ok
  | none, _ => .typeError

/-- The (flight, row, seat) triple of a ticket request, the key of the
storage uniqueness constraint. -/
def reqSeat (r : TicketRequest) : Nat × Nat × Nat :=
  (r.flight.id, r.row, r.seat)

/-- The seat-uniqueness invariant of the spec: no two persisted tickets
share a (flight, row, seat) triple. -/
def SeatUnique (tickets : List Ticket) : Prop :=
  tickets.Pairwise fun a b => ¬(a.flight = b.flight ∧ a.row = b.row ∧ a.seat = b.seat)

/-- The store states reachable through the booking core: the empty store,
plus anything a booking request or an order deletion produces. -/
inductive Reachable : Store → Prop where
  | base : Reachable { tickets := [], orders := [], nextOrderId := 1 }
  | book (s : Store) (user : Nat) (reqs : List TicketRequest) :
      Reachable s → Reachable (processBooking s user reqs).2
  | delete (s : Store) (orderId : Nat) :
      Reachable s → Reachable (deleteOrder s orderId)

/-- Concrete fixtures, mirroring the repository's own test setup
(`airport/tests.py`): a Boeing 737-800 with 30 rows of 6 seats. -/
def exAirplane : Airplane := { rows := 30, seats_in_row := 6 }

def exFlight : Flight := { id := 1, airplane := exAirplane }

def exFlight2 : Flight := { id := 2, airplane := exAirplane }

def emptyStore : Store := { tickets := [], orders := [], nextOrderId := 1 }

def exReq : TicketRequest :=
  { row := 2, seat := 6, ticket_class := some "first", flight := exFlight }

def exReq2 : TicketRequest :=
  { row := 3, seat := 6, ticket_class := some "economy", flight := exFlight }

def exReqOther : TicketRequest :=
  { row := 3, seat := 6, ticket_class := some "economy", flight := exFlight2 }

def exReqBadRow : TicketRequest :=
  { row := 31, seat := 6, ticket_class := some "economy", flight := exFlight }

def exOrder1 : Order := { id := 1, user := 1 }

def exOrder2 : Order := { id := 2, user := 2 }

def exUser : User := { id := 1, is_staff := false, is_authenticated := true }

/-! ### Helper lemmas about the storage layer -/

theorem seatTaken_false_iff (tickets : List Ticket) (f r st : Nat) :
    seatTaken tickets f r st = false ↔
      ∀ t ∈ tickets, ¬(t.flight = f ∧ t.row = r ∧ t.seat = st) := by
  simp [seatTaken]

theorem seatTaken_append (ts us : List Ticket) (f r st : Nat) :
    seatTaken (ts ++ us) f r st = (seatTaken ts f r st || seatTaken us f r st) := by
  simp [seatTaken, List.any_append]

theorem insertTicket_ok_iff (s : Store) (t : Ticket) (s1 : Store) :
    insertTicket s t = .ok s1 ↔
      seatTaken s.tickets t.flight t.row t.seat = false ∧
      s1 = { s with tickets := s.tickets ++ [t] } := by
  unfold insertTicket
  split
  next hc =>
    simp only [hc, Bool.true_eq_false, false_and, iff_false]
    exact fun h => nomatch h
  next hc =>
    simp only [Bool.not_eq_true] at hc
    simp only [hc, Except.ok.injEq, true_and]
    exact eq_comm

theorem createTickets_ok (orderId : Nat) (reqs : List TicketRequest) :
    ∀ s s2 : Store, createTickets s orderId reqs = .ok s2 →
      s2.tickets = s.tickets ++ reqs.map (mkTicket orderId) ∧
      s2.orders = s.orders ∧ s2.nextOrderId = s.nextOrderId := by
  induction reqs with
  | nil =>
      intro s s2 h
      simp only [createTickets, Except.ok.injEq] at h
      subst h
      simp
  | cons r rest ih =>
      intro s s2 h
      simp only [createTickets] at h
      cases hins : insertTicket s (mkTicket orderId r) with
      | error e => simp only [hins] at h; exact nomatch h
      | ok s1 =>
          simp only [hins] at h
          obtain ⟨hfree, rfl⟩ := (insertTicket_ok_iff s _ s1).mp hins
          obtain ⟨h1, h2, h3⟩ := ih _ _ h
          refine ⟨?_, h2, h3⟩
          simpa [List.append_assoc] using h1

theorem seatUnique_append (ts : List Ticket) (t : Ticket)
    (h : SeatUnique ts) (hfree : seatTaken ts t.flight t.row t.seat = false) :
    SeatUnique (ts ++ [t]) := by
  rw [SeatUnique, List.pairwise_append]
  refine ⟨h, List.pairwise_singleton _ _, ?_⟩
  intro a ha b hb
  simp only [List.mem_singleton] at hb
  subst hb
  rw [seatTaken_false_iff] at hfree
  exact hfree a ha

theorem createTickets_seatUnique (orderId : Nat) (reqs : List TicketRequest) :
    ∀ s s2 : Store, SeatUnique s.tickets → createTickets s orderId reqs = .ok s2 →
      SeatUnique s2.tickets := by
  induction reqs with
  | nil =>
      intro s s2 hsu h
      simp only [createTickets, Except.ok.injEq] at h
      subst h
      exact hsu
  | cons r rest ih =>
      intro s s2 hsu h
      simp only [createTickets] at h
      cases hins : insertTicket s (mkTicket orderId r) with
      | error e => simp only [hins] at h; exact nomatch h
      | ok s1 =>
          simp only [hins] at h
          obtain ⟨hfree, rfl⟩ := (insertTicket_ok_iff s _ s1).mp hins
          exact ih _ _ (seatUnique_append _ _ hsu hfree) h

theorem orderCreate_some (s : Store) (user : Nat) (reqs : List TicketRequest)
    (s2 : Store) (orderId : Nat) (h : orderCreate s user reqs = some (s2, orderId)) :
    orderId = s.nextOrderId ∧
    s2.orders = s.orders ++ [{ id := orderId, user := user }] ∧
    s2.tickets = s.tickets ++ reqs.map (mkTicket orderId) ∧
    (SeatUnique s.tickets → SeatUnique s2.tickets) := by
  unfold orderCreate at h
  cases hct : createTickets
      { s with orders := s.orders ++ [{ id := s.nextOrderId, user := user }],
               nextOrderId := s.nextOrderId + 1 } s.nextOrderId reqs with
  | error e => simp only [hct] at h; exact nomatch h
  | ok s3 =>
      simp only [hct, Option.some.injEq, Prod.mk.injEq] at h
      obtain ⟨rfl, rfl⟩ := h
      obtain ⟨h1, h2, _⟩ := createTickets_ok _ _ _ _ hct
      refine ⟨rfl, by simpa using h2, by simpa using h1, ?_⟩
      intro hsu
      exact createTickets_seatUnique _ _ _ _ (by simpa using hsu) hct

theorem processBooking_not_created (s : Store) (user : Nat) (reqs : List TicketRequest)
    (h : orderCreate s user reqs = none ∨ ticketsValidate s.tickets reqs ≠ .ok () ∨
         orderValidate reqs ≠ .ok ()) :
    (processBooking s user reqs).2 = s := by
  unfold processBooking
  cases hv : ticketsValidate s.tickets reqs with
  | error e => rfl
  | ok u =>
      cases ho : orderValidate reqs with
      | error e => rfl
      | ok v =>
          cases hc : orderCreate s user reqs with
          | none => rfl
          | some p =>
              rcases h with h | h | h
              · rw [hc] at h; cases h
              · exact absurd hv h
              · exact absurd ho h

theorem processBooking_created (s : Store) (user : Nat) (reqs : List TicketRequest)
    (s2 : Store) (orderId : Nat) (hc : orderCreate s user reqs = some (s2, orderId))
    (hv : ticketsValidate s.tickets reqs = .ok ())
    (ho : orderValidate reqs = .ok ()) :
    processBooking s user reqs = (.created orderId, s2) := by
  unfold processBooking
  rw [hv, ho, hc]

theorem createTickets_error_of_taken (orderId : Nat) (reqs : List TicketRequest) :
    ∀ s : Store, (∃ r ∈ reqs, seatTaken s.tickets r.flight.id r.row r.seat = true) →
      createTickets s orderId reqs = .error () := by
  induction reqs with
  | nil =>
      intro s h
      obtain ⟨r, hr, _⟩ := h
      cases hr
  | cons a rest ih =>
      intro s h
      simp only [createTickets]
      cases hins : insertTicket s (mkTicket orderId a) with
      | error e => simp only [hins]
      | ok s1 =>
          simp only [hins]
          obtain ⟨hfree, rfl⟩ := (insertTicket_ok_iff s _ s1).mp hins
          obtain ⟨r, hr, htaken⟩ := h
          rcases List.mem_cons.mp hr with rfl | hr2
          · simp only [mkTicket] at hfree
            rw [htaken] at hfree
            cases hfree
          · refine ih _ ⟨r, hr2, ?_⟩
            show seatTaken (s.tickets ++ [mkTicket orderId a]) r.flight.id r.row r.seat = true
            rw [seatTaken_append, htaken]
            rfl

theorem createTickets_error_of_dup (orderId : Nat) (reqs : List TicketRequest) :
    ∀ s : Store, ¬(reqs.map reqSeat).Nodup → createTickets s orderId reqs = .error () := by
  induction reqs with
  | nil =>
      intro s h
      simp at h
  | cons a rest ih =>
      intro s h
      rw [List.map_cons, List.nodup_cons, not_and_or, not_not] at h
      simp only [createTickets]
      cases hins : insertTicket s (mkTicket orderId a) with
      | error e => simp only [hins]
      | ok s1 =>
          simp only [hins]
          obtain ⟨hfree, rfl⟩ := (insertTicket_ok_iff s _ s1).mp hins
          rcases h with hmem | hdup
          · obtain ⟨r, hr, heq⟩ := List.mem_map.mp hmem
            simp only [reqSeat, Prod.mk.injEq] at heq
            obtain ⟨e1, e2, e3⟩ := heq
            refine createTickets_error_of_taken orderId rest _ ⟨r, hr, ?_⟩
            rw [seatTaken_append]
            have h2 : seatTaken [mkTicket orderId a] r.flight.id r.row r.seat = true := by
              simp [seatTaken, mkTicket, e1, e2, e3]
            rw [h2, Bool.or_true]
          · exact ih _ hdup

theorem processBooking_of_orderCreate_none (s : Store) (user : Nat)
    (reqs : List TicketRequest) (hc : orderCreate s user reqs = none) :
    (processBooking s user reqs).2 = s ∧
    ∀ orderId, (processBooking s user reqs).1 ≠ .created orderId := by
  unfold processBooking
  cases hv : ticketsValidate s.tickets reqs with
  | error e => exact ⟨rfl, fun orderId h => nomatch h⟩
  | ok u =>
      cases ho : orderValidate reqs with
      | error e => exact ⟨rfl, fun orderId h => nomatch h⟩
      | ok v =>
          rw [hc]
          exact ⟨rfl, fun orderId h => nomatch h⟩

/-! ### Claim theorems -/

/-- Claim C1: in every reachable store state no two persisted Ticket rows
share a (flight, row, seat) triple, and every operation of the booking
core (order creation with tickets, order deletion) preserves this
invariant. -/
theorem seat_uniqueness_invariant (s : Store) (h : Reachable s) :
    SeatUnique s.tickets := by
  induction h with
  | base => exact List.Pairwise.nil
  | book s user reqs hr ih =>
      unfold processBooking
      cases hv : ticketsValidate s.tickets reqs with
      | error e => exact ih
      | ok u =>
          cases ho : orderValidate reqs with
          | error e => exact ih
          | ok v =>
              cases hc : orderCreate s user reqs with
              | none => exact ih
              | some p =>
                  obtain ⟨s2, orderId⟩ := p
                  exact (orderCreate_some s user reqs s2 orderId hc).2.2.2 ih
  | delete s orderId hr ih =>
      exact List.Pairwise.sublist (List.filter_sublist _) ih

/-- Witness for C1: a store reached by booking two distinct seats from the
empty store satisfies the seat-uniqueness invariant. -/
theorem seat_uniqueness_invariant_witness :
    SeatUnique (processBooking emptyStore 1 [exReq, exReq2]).2.tickets :=
  seat_uniqueness_invariant _ (Reachable.book emptyStore 1 [exReq, exReq2] Reachable.base)

/-- Claim C2: booking is atomic.  If the outcome is `created orderId`, the
Order row and the Tickets of every request are persisted together; on any
other outcome (validation failure or a constraint violation inside the
transaction) the store is exactly the pre-state: no partial order is
ever visible. -/
theorem order_creation_atomic (s : Store) (user : Nat) (reqs : List TicketRequest) :
    (∀ orderId, (processBooking s user reqs).1 = .created orderId →
      (processBooking s user reqs).2.orders = s.orders ++ [{ id := orderId, user := user }] ∧
      (processBooking s user reqs).2.tickets = s.tickets ++ reqs.map (mkTicket orderId)) ∧
    ((∀ orderId, (processBooking s user reqs).1 ≠ .created orderId) →
      (processBooking s user reqs).2 = s) := by
  unfold processBooking
  cases hv : ticketsValidate s.tickets reqs with
  | error e => exact And.intro (fun orderId h => nomatch h) (fun _ => rfl)
  | ok u =>
      cases ho : orderValidate reqs with
      | error e => exact And.intro (fun orderId h => nomatch h) (fun _ => rfl)
      | ok v =>
          cases hc : orderCreate s user reqs with
          | none => exact And.intro (fun orderId h => nomatch h) (fun _ => rfl)
          | some p =>
              obtain ⟨s2, orderId0⟩ := p
              constructor
              · intro orderId h
                simp only [BookingOutcome.created.injEq] at h
                subst h
                obtain ⟨_, h2, h3, _⟩ := orderCreate_some s user reqs s2 orderId0 hc
                exact ⟨h2, h3⟩
              · intro hne
                exact absurd rfl (hne orderId0)

/-- Witness for C2: booking the repository test fixture's two seats from
the empty store persists the order with id 1 and exactly the two ticket
rows. -/
theorem order_creation_atomic_witness :
    (processBooking emptyStore 1 [exReq, exReq2]).2.orders =
      emptyStore.orders ++ [{ id := 1, user := 1 }] ∧
    (processBooking emptyStore 1 [exReq, exReq2]).2.tickets =
      emptyStore.tickets ++ [exReq, exReq2].map (mkTicket 1) :=
  (order_creation_atomic emptyStore 1 [exReq, exReq2]).1 1 (by decide)

/-- Counterexample to C3 as stated: a batch booking the same seat twice
passes both ticket-level and order-level validation (the per-ticket check
looks only at persisted tickets, never at batch-mates), and the request
ends in a storage integrity error at create time, not in a seat-taken
validation rejection. -/
theorem duplicate_batch_cx :
    ticketsValidate emptyStore.tickets [exReq, exReq] = .ok () ∧
    orderValidate [exReq, exReq] = .ok () ∧
    (processBooking emptyStore 1 [exReq, exReq]).1 = .integrityError ∧
    (processBooking emptyStore 1 [exReq, exReq]).1 ≠ .ticketError .seatAlreadyTaken := by
  refine ⟨rfl, rfl, rfl, by decide⟩

/-- Claim C3 (amended): a booking whose batch holds two requests for the
same (flight, row, seat) is never persisted — the store is unchanged and
the outcome is never `created` — but the duplicate is caught by the
storage uniqueness constraint inside the transaction, not by validation:
when the batch passes validation the outcome is the integrity error, not
the seat-taken validation error. -/
theorem duplicate_batch_rolled_back (s : Store) (user : Nat)
    (reqs : List TicketRequest) (hdup : ¬(reqs.map reqSeat).Nodup) :
    ((processBooking s user reqs).2 = s ∧
      ∀ orderId, (processBooking s user reqs).1 ≠ .created orderId) ∧
    (ticketsValidate s.tickets reqs = .ok () → orderValidate reqs = .ok () →
      processBooking s user reqs = (.integrityError, s)) := by
  have hcreate : orderCreate s user reqs = none := by
    have hB : ∀ s1, createTickets s1 s.nextOrderId reqs = .error () :=
      fun s1 => createTickets_error_of_dup s.nextOrderId reqs s1 hdup
    simp only [orderCreate, hB]
  refine ⟨processBooking_of_orderCreate_none s user reqs hcreate, ?_⟩
  intro hv ho
  unfold processBooking
  rw [hv, ho, hcreate]

/-- Witness for C3 (amended): booking the same seat twice from the empty
store rolls back to the empty store with the integrity-error outcome. -/
theorem duplicate_batch_rolled_back_witness :
    processBooking emptyStore 1 [exReq, exReq] = (.integrityError, emptyStore) :=
  (duplicate_batch_rolled_back emptyStore 1 [exReq, exReq] (by decide)).2
    (by rfl) (by rfl)

/-- Claim C4 (evaluating the code at the failing input): a booking request
with an empty ticket list is not rejected — the write-side `tickets`
field of `OrderSerializer` does not forbid empty lists and
`OrderSerializer.validate` skips its check on an empty list — so an
Order with zero tickets is created and persisted. -/
theorem empty_ticket_list_creates_order :
    (processBooking emptyStore 1 []).1 = .created 1 ∧
    (processBooking emptyStore 1 []).2 =
      { tickets := [], orders := [{ id := 1, user := 1 }], nextOrderId := 2 } :=
  ⟨rfl, rfl⟩

/-- Counterexample to C5 as stated: a batch over two distinct flights
whose first ticket has row 31 on the 30-row airplane is rejected with
that ticket's out-of-range error — the per-ticket (field-level)
validation runs before `OrderSerializer.validate` — so the rejection is
not the multi-flight validation error the claim promises for every
multi-flight request. -/
theorem multi_flight_cx :
    (([exReqBadRow, exReqOther].map fun r => r.flight.id).dedup).length > 1 ∧
    (processBooking emptyStore 1 [exReqBadRow, exReqOther]).1 =
      .ticketError (.rowOutOfRange 30) ∧
    (processBooking emptyStore 1 [exReqBadRow, exReqOther]).1 ≠
      .orderError .multiFlight := by
  refine ⟨by decide, rfl, by decide⟩

/-- Claim C5 (amended): a booking whose ticket requests reference more
than one distinct flight id is never persisted (store unchanged, never
`created`); when every ticket passes the per-ticket validation it is
rejected with the multi-flight validation error, while a multi-flight
batch containing an individually invalid ticket is rejected with that
ticket's error instead, since per-ticket validation runs first; when all
tickets reference one flight the order-level check passes. -/
theorem multi_flight_rejected (s : Store) (user : Nat) (reqs : List TicketRequest) :
    (((reqs.map fun r => r.flight.id).dedup).length > 1 →
      ((processBooking s user reqs).2 = s ∧
        ∀ orderId, (processBooking s user reqs).1 ≠ .created orderId) ∧
      (ticketsValidate s.tickets reqs = .ok () →
        processBooking s user reqs = (.orderError .multiFlight, s))) ∧
    (((reqs.map fun r => r.flight.id).dedup).length ≤ 1 →
      orderValidate reqs = .ok ()) := by
  constructor
  · intro hgt
    have hne : reqs.isEmpty = false := by
      cases reqs with
      | nil => simp at hgt
      | cons a l => rfl
    have hov : orderValidate reqs = .error .multiFlight := by
      unfold orderValidate
      rw [hne]
      simp [hgt]
    constructor
    · unfold processBooking
      cases hv : ticketsValidate s.tickets reqs with
      | error e => exact ⟨rfl, fun orderId h => nomatch h⟩
      | ok u =>
          rw [hov]
          exact ⟨rfl, fun orderId h => nomatch h⟩
    · intro hv
      unfold processBooking
      rw [hv, hov]
  · intro hle
    unfold orderValidate
    split
    · rfl
    · rw [if_neg (by omega)]

/-- Witness for C5: a two-flight batch from the empty store is rejected
with the multi-flight error and the store is unchanged; a same-flight
batch passes the order-level check. -/
theorem multi_flight_rejected_witness :
    processBooking emptyStore 1 [exReq, exReqOther] = (.orderError .multiFlight, emptyStore) ∧
    orderValidate [exReq, exReq2] = .ok () :=
  ⟨((multi_flight_rejected emptyStore 1 [exReq, exReqOther]).1 (by decide)).2 (by rfl),
   (multi_flight_rejected emptyStore 1 [exReq, exReq2]).2 (by decide)⟩

/-- Counterexample to C6 as stated: for row = 0 (which satisfies
`row < 1`) against the 30-row test airplane, validation does fail, but
with the generic missing-field error — Python's
`not all([flight, row, seat])` treats 0 as absent — not with the
row-out-of-range error citing the bound 1..30. -/
theorem row_zero_cx :
    ticketValidate [] exFlight 0 3 = .error .missingField ∧
    ticketValidate [] exFlight 0 3 ≠ .error (.rowOutOfRange 30) := by
  refine ⟨rfl, fun h => nomatch h⟩

/-- Claim C6 (amended): provided the seat is not already sold (the
seat-taken lookup runs before the bounds checks), a request with
1 ≤ row ≤ rows and 1 ≤ seat ≤ seats_in_row passes validation; a request
with row ≥ 1 beyond the row bound fails citing 1..rows; a request with
in-range row and seat ≥ 1 beyond the seat bound fails citing
1..seats_in_row; but a request with row = 0 or seat = 0 fails with the
generic missing-field error instead of the out-of-range error. -/
theorem seat_map_validation (existing : List Ticket) (f : Flight) (row seat : Nat)
    (hfree : seatTaken existing f.id row seat = false) :
    (1 ≤ row → row ≤ f.airplane.rows → 1 ≤ seat → seat ≤ f.airplane.seats_in_row →
      ticketValidate existing f row seat = .ok ()) ∧
    (1 ≤ row → 1 ≤ seat → f.airplane.rows < row →
      ticketValidate existing f row seat = .error (.rowOutOfRange f.airplane.rows)) ∧
    (1 ≤ row → row ≤ f.airplane.rows → 1 ≤ seat → f.airplane.seats_in_row < seat →
      ticketValidate existing f row seat = .error (.seatOutOfRange f.airplane.seats_in_row)) ∧
    (row = 0 ∨ seat = 0 → ticketValidate existing f row seat = .error .missingField) := by
  refine ⟨?_, ?_, ?_, ?_⟩
  · intro h1 h2 h3 h4
    unfold ticketValidate
    rw [if_neg (by omega), if_neg (by simp [hfree]), if_neg (by omega), if_neg (by omega)]
  · intro h1 h2 h3
    unfold ticketValidate
    rw [if_neg (by omega), if_neg (by simp [hfree]), if_pos (by omega)]
  · intro h1 h2 h3 h4
    unfold ticketValidate
    rw [if_neg (by omega), if_neg (by simp [hfree]), if_neg (by omega), if_pos (by omega)]
  · intro h
    unfold ticketValidate
    rw [if_pos h]

/-- Witness for C6 (amended): on the 30 × 6 test airplane with no sold
seats, (2,3) passes, row 31 cites 1..30, seat 7 cites 1..6, and row 0
gets the missing-field error. -/
theorem seat_map_validation_witness :
    ticketValidate [] exFlight 2 3 = .ok () ∧
    ticketValidate [] exFlight 31 3 = .error (.rowOutOfRange 30) ∧
    ticketValidate [] exFlight 2 7 = .error (.seatOutOfRange 6) ∧
    ticketValidate [] exFlight 0 5 = .error .missingField :=
  ⟨(seat_map_validation [] exFlight 2 3 (by rfl)).1 (by decide) (by decide) (by decide) (by decide),
   (seat_map_validation [] exFlight 31 3 (by rfl)).2.1 (by decide) (by decide) (by decide),
   (seat_map_validation [] exFlight 2 7 (by rfl)).2.2.1 (by decide) (by decide) (by decide) (by decide),
   (seat_map_validation [] exFlight 0 5 (by rfl)).2.2.2 (Or.inl rfl)⟩

/-- Claim C7: price resolution is a pure total function of the ticket
class — economy, business and first map to 100, 200 and 300, a missing
class defaults to economy's 100, any unknown class also yields 100 —
and every ticket row built at create time carries exactly the price
resolved for its request's class. -/
theorem price_resolution (c : String) (orderId : Nat) (r : TicketRequest) :
    priceFor (some "economy") = 100 ∧
    priceFor (some "business") = 200 ∧
    priceFor (some "first") = 300 ∧
    priceFor none = 100 ∧
    (c ≠ "economy" → c ≠ "business" → c ≠ "first" → priceFor (some c) = 100) ∧
    (mkTicket orderId r).price = priceFor r.ticket_class := by
  refine ⟨rfl, rfl, rfl, rfl, ?_, rfl⟩
  intro h1 h2 h3
  simp [priceFor, price_mapping, h1, h2, h3]

/-- Witness for C7: a class outside the three known ones resolves to the
economy price 100. -/
theorem price_resolution_witness : priceFor (some "premium") = 100 :=
  (price_resolution "premium" 1 exReq).2.2.2.2.1 (by decide) (by decide) (by decide)

/-- Claim C8: order visibility — a non-staff authenticated user receives
exactly the orders whose user field equals their own id, and a staff
caller receives all orders. -/
theorem order_visibility (orders : List Order) (u : User) :
    (u.is_staff = false → u.is_authenticated = true →
      get_queryset orders u = orders.filter (fun o => o.user = u.id) ∧
      ∀ o, o ∈ get_queryset orders u ↔ o ∈ orders ∧ o.user = u.id) ∧
    (u.is_staff = true → get_queryset orders u = orders) := by
  constructor
  · intro hs ha
    have heq : get_queryset orders u = orders.filter (fun o => o.user = u.id) := by
      simp [get_queryset, hs, ha]
    refine ⟨heq, ?_⟩
    intro o
    rw [heq]
    simp [List.mem_filter]
  · intro hs
    simp [get_queryset, hs]

/-- Witness for C8: with one order owned by user 1 and one by user 2, the
non-staff authenticated user 1 sees exactly their own order. -/
theorem order_visibility_witness :
    get_queryset [exOrder1, exOrder2] exUser =
      [exOrder1, exOrder2].filter (fun o => o.user = exUser.id) :=
  ((order_visibility [exOrder1, exOrder2] exUser).1 (by decide) (by decide)).1

/-- Claim C9: with both timestamps present, a flight whose departure is in
the past is rejected with a validation error, a flight whose arrival is
not strictly after its departure is rejected with the time-range message,
and a flight departing in the future strictly before its arrival passes
both checks. -/
theorem flight_time_validation (d a now : Int) :
    (d < now → ∃ msg, flightValidate (some d) (some a) now = .validationError msg) ∧
    (a ≤ d → flightValidate (some d) (some a) now =
      .validationError "Arrival time must be after departure time.") ∧
    (now ≤ d → d < a → flightValidate (some d) (some a) now = .ok) := by
  refine ⟨?_, ?_, ?_⟩
  · intro h
    simp only [flightValidate]
    by_cases hda : d ≥ a
    · exact ⟨_, by rw [if_pos hda]⟩
    · exact ⟨_, by rw [if_neg hda, if_pos h]⟩
  · intro h
    simp only [flightValidate]
    rw [if_pos (show d ≥ a by omega)]
  · intro h1 h2
    simp only [flightValidate]
    rw [if_neg (show ¬d ≥ a by omega), if_neg (show ¬d < now by omega)]

/-- Witness for C9: a past departure is rejected, an arrival equal to the
departure is rejected with the time-range message, and a future departure
strictly before its arrival passes. -/
theorem flight_time_validation_witness :
    (∃ msg, flightValidate (some (-5)) (some 10) 0 = .validationError msg) ∧
    flightValidate (some 7) (some 7) 0 =
      .validationError "Arrival time must be after departure time." ∧
    flightValidate (some 1) (some 2) 0 = .ok :=
  ⟨(flight_time_validation (-5) 10 0).1 (by decide),
   (flight_time_validation 7 7 0).2.1 (by decide),
   (flight_time_validation 1 2 0).2.2 (by decide) (by decide)⟩

/-- Claim C10: when `departure_time` is absent the unguarded comparison
against the current time makes `FlightSerializer.validate` crash with a
`TypeError`: it neither returns normally nor raises a structured
validation error, whatever the arrival time. -/
theorem missing_departure_crashes (arrival : Option Int) (now : Int) :
    flightValidate none arrival now = .typeError ∧
    flightValidate none arrival now ≠ .ok ∧
    ∀ msg, flightValidate none arrival now ≠ .validationError msg := by
  exact And.intro rfl (And.intro (fun h => nomatch h) (fun msg h => nomatch h))

end Airport
